import Mathlib

/-!
Verification of the two-wheel-bot DQN inference engine found in
src/models/good_two_wheel_bot_dqn_2025-08-17T19-28-58.cpp and its two sibling
model files (great_two_wheel_bot_dqn_2025-08-18T22-59-12.cpp,
okayish_two_wheel_bot_dqn_2025-08-17T17-26-44.cpp).

The arithmetic of the source is modelled exactly over ℚ.  Every float literal
of the source has exactly six decimal digits, so each one is transcribed
exactly as an integer number of micro-units (the literal times 10^6) and
decoded by division by 10^6.  The constant M_PI used by the source is the
IEEE-754 double closest to π, an exact rational number, which is what we use.
Out-of-bounds array indexing (which the source performs unchecked in
getMotorTorque) is modelled as a bounds-checked access returning an
out-of-range error.
-/

/-- Exact rational value of the IEEE-754 double constant M_PI
    (the double closest to π). -/
def mPi : ℚ := 884279719003555 / 281474976710656

/-- The four parameter tensors of a TwoWheelBotDQN instance, architecture
    2-64-3: input→hidden weights (2·64 entries, laid out exactly as the
    source array weightsInputHidden), hidden biases (64), hidden→output
    weights (64·3, laid out as weightsHiddenOutput), output biases (3). -/
structure Params where
  wIH : List ℚ
  bH : List ℚ
  wHO : List ℚ
  bO : List ℚ

/-- Decodes a micro-unit integer into the rational it denotes: the source
    float literal d.dddddd is stored as the integer d·10^6 and decoded here. -/
def q6 (z : ℤ) : ℚ := (z : ℚ) / 1000000

/-- Embeds relu from the source (lines 81–83): x > 0 ? x : 0. -/
def relu (x : ℚ) : ℚ := if x > 0 then x else 0

/-- Embeds constrain from the source (lines 140–144). -/
def constrain (value min max : ℚ) : ℚ :=
  if value < min then min else if value > max then max else value

/-- Input normalization of getAction, line 95:
    input[0] = constrain(angle / (M_PI / 3), -1.0, 1.0). -/
def normAngle (angle : ℚ) : ℚ := constrain (angle / (mPi / 3)) (-1) 1

/-- Input normalization of getAction, line 96:
    input[1] = constrain(angularVelocity / 10.0, -1.0, 1.0). -/
def normVel (angularVelocity : ℚ) : ℚ := constrain (angularVelocity / 10) (-1) 1

/-- Hidden unit h of the forward pass (getAction lines 100–106): bias, plus
    input[0]·weightsInputHidden[0·64+h], plus input[1]·weightsInputHidden[1·64+h],
    accumulated in that order, then relu. -/
def hiddenVal (p : Params) (i0 i1 : ℚ) (h : ℕ) : ℚ :=
  relu ((p.bH.getD h 0 + i0 * p.wIH.getD (0 * 64 + h) 0) + i1 * p.wIH.getD (1 * 64 + h) 0)

/-- Output score o of the forward pass (getAction lines 113–117): bias, then
    the 64 products hidden[h]·weightsHiddenOutput[h·3+o] accumulated
    left-to-right, with no activation applied. -/
def outputVal (p : Params) (i0 i1 : ℚ) (o : ℕ) : ℚ :=
  (List.range 64).foldl (fun acc h => acc + hiddenVal p i0 i1 h * p.wHO.getD (h * 3 + o) 0)
    (p.bO.getD o 0)

/-- The action-selection loop of getAction (lines 110–124): a running maximum
    initialized to -1e10 with best index 0, updated on strict greater-than. -/
def selectBest (out : ℕ → ℚ) : ℚ × ℕ :=
  (List.range 3).foldl (fun st o => if out o > st.1 then (out o, o) else st) (-(10 ^ 10), 0)

/-- Embeds getAction (lines 92–127), parameterized by the weight tensors. -/
def getAction (p : Params) (angle angularVelocity : ℚ) : ℕ :=
  (selectBest (outputVal p (normAngle angle) (normVel angularVelocity))).2

/-- Error kind raised by a bounds-checked array access. -/
inductive BoundsError where
| outOfRange

/-- Bounds-checked array indexing with an int index, the defined semantics of
    the source's actions[action] access in an environment with bounds
    checking; an index outside the array fails with outOfRange. -/
def atIdx (l : List ℚ) (i : ℤ) : Except BoundsError ℚ :=
  if 0 ≤ i ∧ i.toNat < l.length then Except.ok (l.getD i.toNat 0)
  else Except.error BoundsError.outOfRange

/-- Embeds getMotorTorque (lines 134–137): index into the fixed table
    actions[3] = {-1.0, 0.0, 1.0}. -/
def getMotorTorque (action : ℤ) : Except BoundsError ℚ := atIdx [-1, 0, 1] action

/-- State-passing form of a getAction call on a parameter store: the member
    function reads the tensors and writes nothing. -/
def getActionM (angle angularVelocity : ℚ) : StateM Params ℕ := do
  let p ← get
  pure (getAction p angle angularVelocity)
/-- Micro-unit (×10^6) transcription of the WIH array of the good model file. -/
def goodWIH : List ℤ := [
  6295638, -1850533, -3660843, 602734, -6841746, -2096013, -2126892, 7628844,
  -1742573, 9687100, 4709247, -2089385, -2576713, 9120074, 502768, -1870195,
  -2594027, 7311043, -4326180, -3920493, 9728833, -2216990, 5342290, 8861135,
  -6688597, 4232511, 9996012, 4026363, 8000815, -5578982, 4699579, 2422302,
  -1920287, -3820326, -3596382, 5016973, 4649177, 8202576, -6308837, 4131910,
  9413630, -2304744, 8491673, 9952552, -2091427, 2351893, 629483, -9662912,
  -7130031, -4491361, -8846105, 9965243, -7087262, -2284093, -6909976, 935843,
  -9990727, 9979317, 7905297, 4997625, 9103757, 7880756, 5246580, 9993675,
  6975945, 6465416, -5528822, -1290155, 7186906, 6890776, 7693265, 9329733,
  6429513, 9168078, 7105161, 7607069, 3538911, 8852961, 2878730, 7340614,
  7452807, 4370234, -5238105, -5412622, 2631392, 6004950, 7786075, 3688759,
  -9904918, 7136580, 6699219, 7037698, 6476280, -143927, 6828653, 9500813,
  7363741, 9450343, -5505105, 6986243, 6728014, 8457144, -3787674, 8261312,
  9560166, 7475851, 3418196, 1169422, 6794282, 80153, -8089054, -9846926,
  3053711, 4115725, 6924769, 9964819, -3540367, 7449141, -9998987, 6612534,
  -9732748, 9999708, 8764077, 7846357, 9999992, -2676654, 7982852, 9998997]

/-- Micro-unit (×10^6) transcription of the BH array of the good model file. -/
def goodBH : List ℤ := [
  80536, -929635, -6501798, -179922, 9275137, -1476170, -1153123, -58938,
  -993763, -32095, -30411, -1143823, -1419015, 9995647, -1007954, -1195314,
  -748420, 9999460, -7017145, -6701336, -240355, -911372, 59972, 9997789,
  -547384, 449758, 9307693, -18306, 4539246, -5653224, -88031, 1631950,
  -1184551, 3198842, -6424275, 109031, -86791, 137293, 2834974, -1177511,
  -67350, -947959, -1161099, 9805529, -871277, 3015492, -2235251, -588661,
  22934, 3431534, 4629768, -208353, 60355, -951354, -280214, -3236523,
  -96716, 9865481, 6809405, 3647973, 5385517, 1412368, -39483, 9995531]

/-- Micro-unit (×10^6) transcription of the WHO array of the good model file. -/
def goodWHO : List ℤ := [
  -9759555, -9704429, -3454707, -5564745, -3108928, -2520485, 1461152, -9709034,
  -5648414, -2212940, -139113, 5160562, 431317, -1438130, 400379, -6373718,
  -1190379, 254943, -7306643, -1843698, -1973046, -6472114, -9947268, -2031401,
  -5127713, -4352422, -3465006, -5539598, -1447761, 8454305, -9712676, -9834433,
  -7446741, -8441308, -1715975, -2384837, 655623, 1198598, 1451485, -651078,
  -6365025, 2984835, -620551, -3977003, -6567152, -8432240, -2002603, -1969182,
  -6569915, -2962635, -1466082, 597767, 1695903, 414740, 1141466, -10000000,
  -5519770, 1364865, -10000000, -5648401, 4466168, 4912095, -9997786, -4884659,
  -3638630, 2212678, -8079793, -9547993, -3167751, -408713, 6187855, 1462381,
  -9787572, -4645315, -10000000, -9581159, -9621643, -8123490, 19523, 537000,
  -1720936, -9698351, -9877735, -8298148, 6285109, 9436760, 9999233, 5953860,
  9845404, -2366477, -7273551, -9900617, -7681024, 9999985, -9046762, -800157,
  -6896054, -2194559, -3068935, 9999969, -6593205, -998238, 1531406, -7872448,
  -5429743, -8578238, -9719885, -5070611, -6413540, -9900917, -7672114, 3818908,
  1020840, 7636564, 74648, 1333026, 2131731, -6511018, -8141835, -2197324,
  -7497734, -8794179, -1682740, -8339524, -2055104, -1593541, 7187456, 7874950,
  5511042, 151787, 3062952, -624655, -5830593, -2893039, -2016152, -22415,
  -3163301, 3536042, -3898687, 5829141, -4216600, -9235849, -9890819, -10000000,
  -3540342, -7601387, -7294088, 3328122, 521785, 788391, 2388827, -1355578,
  9333737, 1931855, -4671470, -7351176, -9182127, -7005639, -6903049, -8422039,
  -2288596, -1656692, -9779089, 3331609, -10000000, -1587553, -3719940, -4566545,
  9999997, -2246124, -5716110, -1102775, 1669343, -782916, -757946, 2341926,
  133086, 440944, 584484, -1092948, 561345, 625357, -1059536, 8594075,
  5169158, -7616521, -1505104, 2752802, -1613890, -437487, 1791742, -1057920]

/-- Micro-unit (×10^6) transcription of the BO array of the good model file. -/
def goodBO : List ℤ := [
  9999990, 9864182, 8508238]

/-- Micro-unit (×10^6) transcription of the WIH array of the great model file. -/
def greatWIH : List ℤ := [
  1562055, 514468, -473006, 2808634, 4760920, 2532120, 1124356, 1504863,
  1805886, 1634778, -2062981, 1178754, 428206, -563004, 1535193, -1068067,
  -1057839, -729536, 1484605, -998221, 2255957, 1229661, 1556052, 2357310,
  239409, 2696138, -1084991, -1703210, 1799259, -1283825, 3650103, 2727259,
  2212618, 2015595, 1633075, 605992, -630083, 2147849, -1120478, 2848284,
  -577283, 1611074, -200125, 1668548, -541821, -594331, -427008, 3236287,
  2886371, -133864, -2303359, -130546, 802876, 809989, 1634268, -1151100,
  -602146, 1177242, -145163, 1298190, -172146, 1874677, 1142781, 645349,
  140528, -1276738, -1181672, 2752764, 1922178, 1899242, -168059, 240058,
  -677331, 1194658, 2632901, 135653, 819208, 2169080, -1624542, 1515473,
  -1046074, -44351, -1354770, 1402764, 607658, 252495, 2683328, 3269516,
  -3574276, 1946949, -887349, 1200368, 64354, 2477621, 825214, 2146510,
  3446882, 808979, -1282878, 1172869, -586936, 1235414, 2051383, 3609596,
  1502400, 2384709, -1698860, 438668, 1100604, 1389171, -451361, -713746,
  2529861, 325006, -155409, -121435, -1491407, 2179578, -3194122, -1796545,
  -405066, 810857, 1003453, 1030951, -1696151, 2399278, 1698151, 668891]

/-- Micro-unit (×10^6) transcription of the BH array of the great model file. -/
def greatBH : List ℤ := [
  3335025, -430289, -829481, 479285, 64816, 2977705, 1537046, 4088611,
  4164180, 1869742, 4015369, 2218691, 2194860, 2188948, 4111330, 321192,
  -807275, 3492487, 5536273, 4350257, 2567554, 4641420, -505011, -237479,
  -644005, -473401, 1673581, 3670061, 3787272, 3417239, -2360, 3081504,
  6566, 2441579, 1465405, 3236509, -915540, 3159756, 1606339, 389322,
  4343277, 3001121, 33443, -334158, 1705243, -654399, -682102, 3266447,
  -136549, 2909122, 8018, 3442800, 268609, -1493734, 707482, -212758,
  -830591, -1481474, 1046644, -1493130, 3650714, 3451095, 1528494, 3035869]

/-- Micro-unit (×10^6) transcription of the WHO array of the great model file. -/
def greatWHO : List ℤ := [
  465633, 1496157, 1884236, 811821, -174297, 373779, 1205584, -845979,
  903113, -759903, -1936574, -622517, -1886793, -1696501, -1095496, 289177,
  704771, 102861, 747737, 64139, 467976, -134089, 351984, 1813471,
  1214756, 826649, 1598918, 465928, 360751, 320001, 1831483, 201918,
  1510664, 32636, 1774777, -323431, 552404, 1960562, 599258, 194048,
  1617670, 401782, 1508444, 406192, 1549503, 600662, 4383265, 304499,
  113412, -845975, -1044519, 873461, 786546, 2071872, 3021733, 388386,
  741189, 1777898, 194675, 1673239, 459059, 441026, -22435, 1213874,
  4930711, -1773572, -500528, -1981457, -266859, -363574, -2895611, -824536,
  38620, -1091421, -272516, -429502, -1647473, -646360, 1774762, 2444822,
  1759911, 1570304, -119839, 1728926, 1200217, 331585, 1062623, 1011681,
  -404660, 981923, -1113478, -1766857, -1091031, 435578, 876305, 34029,
  -968539, -1134618, -740847, 501672, 158326, 397873, -93179, 574975,
  1285098, 371434, 393031, 1448127, 1017989, -973421, 1042020, 613371,
  239669, 415911, 463373, 257178, 960232, -1034883, -1863229, -870047,
  1285384, 346159, 1616449, 316559, -157922, -11393, -260219, -353031,
  -1292353, -122499, -1896060, -447871, 605159, -138838, 1106491, 894468,
  -758770, 349735, 672770, -506824, 83725, 251856, 1499237, 1179429,
  -816366, -1872082, -942827, 719754, 1530704, 1105589, -953745, -607486,
  -1675260, -453360, 1676731, -108341, 332944, -559575, 570322, 1389,
  -556805, 39936, 1067614, 327634, 880732, -78886, -692667, -1079174,
  1187045, -1229772, 969661, 181852, -418336, 92987, 240172, 3889463,
  362683, -327369, -1417740, 61413, 1209702, 1151713, 1747081, 353684,
  -11685, -99002, 96467, 1298059, 427827, 884686, 919311, 1119833]

/-- Micro-unit (×10^6) transcription of the BO array of the great model file. -/
def greatBO : List ℤ := [
  608543, 4684580, 430603]

/-- Micro-unit (×10^6) transcription of the WIH array of the okayish model file. -/
def okayishWIH : List ℤ := [
  7023232, -1946496, -3660843, 602734, -5156502, -2125623, -2262152, 3537727,
  -1847513, 5594237, 5157835, -2229493, -2576713, -4074543, 3075437, 1582539,
  -2657667, 6860506, -4326180, -3920493, 1961780, -2236488, 8866314, 8776635,
  -6881963, 7039897, 6978577, 3682001, 8947897, -5578982, 5578310, -396936,
  1448075, 2259323, -3596382, 5706481, 3215534, 9003716, 2990098, 5682712,
  5422194, -2412235, 8792321, 4318284, -2177967, 8304332, 656789, -5843938,
  -6586642, -4976937, 9008966, 5064896, 1330268, -2393737, -3755072, 5433015,
  -7779222, 5952105, 6251626, 8590270, 1916585, 3361299, 4988776, 8524696,
  7040170, 6249614, -5528822, -1290155, -2341282, 6861738, 7467060, 9133445,
  6195847, -543552, 1495834, 7389530, 3538911, -2879457, 5602779, 9999001,
  7287007, 7165514, -5238105, -5412622, 6280796, 5985641, 9998694, 6671149,
  -9272775, 9999001, 6411644, 9999001, 2362712, -143927, 9987533, -1337093,
  9999001, -3802574, -5505105, 5309973, 9999001, 1243797, 625026, 9999001,
  5444474, 7289879, 6816528, 4470291, 6592383, 702628, -7943575, -8206820,
  -9986835, -3605889, 986598, 9999001, -6502712, 7262049, -9582799, 9456708,
  -8293652, 6828340, 6330016, 5177098, 4480667, 6679293, 6803697, 5973219]

/-- Micro-unit (×10^6) transcription of the BH array of the okayish model file. -/
def okayishBH : List ℤ := [
  -4608638, -1025601, -6501798, -179922, 9999697, -1505780, -1288382, -63906,
  -1098465, -5406548, -5626944, -1283827, -1419015, 7609716, -19569, -267095,
  -812000, 8893893, -7017145, -6701336, -298858, -930873, -756151, 9998854,
  -740462, -782925, 9059819, -454074, -2636194, -5653224, 432449, -904040,
  -257348, -390401, -6424275, -5094511, -413040, -2548503, 9998443, -652023,
  -6177557, -1055423, -1111208, 7945953, -957842, 9960999, -2262724, -4519,
  -576031, 9999621, -2522706, -591737, -43445, -1060988, -601453, -395452,
  41157, 9997232, 8007367, 8574869, 8618369, -475475, -3885806, 9999194]

/-- Micro-unit (×10^6) transcription of the WHO array of the okayish model file. -/
def okayishWHO : List ℤ := [
  -5587954, -1338409, 7894243, -4962707, -3182529, -2710292, 1461152, -9709034,
  -5648414, -2212940, -139113, 5160562, -84272, 671394, 2650271, -6373718,
  -1190761, 246599, -6727904, -1919167, -2161101, -9998485, -9104272, -6751316,
  -4544266, -4427130, -3654868, -2031543, -2058283, 9277313, -4725622, -2927679,
  2245592, -7851984, -1791459, -2572003, 655623, 1198598, 1451485, 1544230,
  -1286419, 873134, -4064549, -5273642, -7706302, -9997818, -3833695, -5459013,
  -5847614, -3030030, -1662569, 1970976, 252092, -554032, 1141466, -10000000,
  -5519770, 1364865, -10000000, -5648401, 1014188, 426735, -8632522, -4884659,
  -3638630, 2209774, -9998488, -9236064, -818472, 186232, 6200472, 1062291,
  -9567947, -7802730, -9969671, -9998501, -8178892, -2274161, 1750523, 317791,
  -568474, -9998501, -9998934, -8020748, 9990403, 7111800, 5202513, 5953860,
  9845404, -2366477, -5184835, -5301702, 9998660, 9742731, -2212579, 9827650,
  -9712143, -4027054, -6541830, 7397160, 8965155, 9583761, 1531406, -7872448,
  -5429743, -7620375, -6061645, 1329547, -9998339, -9999308, -8597130, 9978527,
  7311152, 6552685, -3781931, 233861, 1429024, -7103989, -9731123, -2981201,
  -6539904, -878213, 7422890, -7699227, -2127329, -1782914, 8523526, 7226751,
  -5621420, 2145602, 17955, -266393, -5200203, -2964766, -2204410, 989793,
  -1440522, 3423784, -3725695, 5854098, -4168884, -5795030, -7439397, -5605638,
  9576832, -2339823, -5102937, -833721, 1272744, 2634202, 9973733, 8245879,
  5849717, -5402317, -6336952, -4632036, -7499793, -7818459, -8956123, -7782010,
  -2361067, -1846055, -9937052, 4737638, -8084605, -3914376, -5222555, -6069197,
  9083991, 9500952, 9353291, 1528680, 1264627, -1153892, 1587600, 252650,
  -293399, 698731, -1105670, 858467, 2815850, -328581, -599793, 7979664,
  2225731, -10000000, -752829, 822771, -6823290, 721177, 2456748, -943365]

/-- Micro-unit (×10^6) transcription of the BO array of the okayish model file. -/
def okayishBO : List ℤ := [
  9509856, 9999767, 9999404]
/-- The trained parameter set of the good model file. -/
def goodParams : Params :=
  ⟨goodWIH.map q6, goodBH.map q6, goodWHO.map q6, goodBO.map q6⟩

/-- The trained parameter set of the great model file. -/
def greatParams : Params :=
  ⟨greatWIH.map q6, greatBH.map q6, greatWHO.map q6, greatBO.map q6⟩

/-- The trained parameter set of the okayish model file. -/
def okayishParams : Params :=
  ⟨okayishWIH.map q6, okayishBH.map q6, okayishWHO.map q6, okayishBO.map q6⟩

namespace Great

/-- Transcription of getAction from great_two_wheel_bot_dqn_2025-08-18T22-59-12.cpp
    (lines 92–127), parameterized by the weight tensors; the file's code is
    transcribed independently of the good file's transcription above. -/
def getAction (p : Params) (angle angularVelocity : ℚ) : ℕ :=
  let input0 := constrain (angle / (mPi / 3)) (-1) 1
  let input1 := constrain (angularVelocity / 10) (-1) 1
  let hidden : ℕ → ℚ := fun h =>
    relu ((p.bH.getD h 0 + input0 * p.wIH.getD (0 * 64 + h) 0) + input1 * p.wIH.getD (1 * 64 + h) 0)
  let output : ℕ → ℚ := fun o =>
    (List.range 64).foldl (fun acc h => acc + hidden h * p.wHO.getD (h * 3 + o) 0) (p.bO.getD o 0)
  ((List.range 3).foldl (fun st o => if output o > st.1 then (output o, o) else st)
    (-(10 ^ 10), 0)).2

/-- Transcription of getMotorTorque from the great model file (lines 134–137). -/
def getMotorTorque (action : ℤ) : Except BoundsError ℚ := atIdx [-1, 0, 1] action

end Great

namespace Okayish

/-- Transcription of getAction from okayish_two_wheel_bot_dqn_2025-08-17T17-26-44.cpp
    (lines 92–127), parameterized by the weight tensors. -/
def getAction (p : Params) (angle angularVelocity : ℚ) : ℕ :=
  let input0 := constrain (angle / (mPi / 3)) (-1) 1
  let input1 := constrain (angularVelocity / 10) (-1) 1
  let hidden : ℕ → ℚ := fun h =>
    relu ((p.bH.getD h 0 + input0 * p.wIH.getD (0 * 64 + h) 0) + input1 * p.wIH.getD (1 * 64 + h) 0)
  let output : ℕ → ℚ := fun o =>
    (List.range 64).foldl (fun acc h => acc + hidden h * p.wHO.getD (h * 3 + o) 0) (p.bO.getD o 0)
  ((List.range 3).foldl (fun st o => if output o > st.1 then (output o, o) else st)
    (-(10 ^ 10), 0)).2

/-- Transcription of getMotorTorque from the okayish model file (lines 134–137). -/
def getMotorTorque (action : ℤ) : Except BoundsError ℚ := atIdx [-1, 0, 1] action

end Okayish

/-! ### Helper lemmas -/

/-- relu is the positive part. -/
lemma relu_eq_max (x : ℚ) : relu x = max 0 x := by
  unfold relu
  rcases lt_or_le 0 x with h | h
  · rw [if_pos h, max_eq_right h.le]
  · rw [if_neg (not_lt.2 h), max_eq_left h]

lemma relu_nonneg (x : ℚ) : 0 ≤ relu x := by
  rw [relu_eq_max]; exact le_max_left 0 x

lemma relu_le_abs (x : ℚ) : relu x ≤ |x| := by
  rw [relu_eq_max, max_le_iff]
  exact ⟨abs_nonneg x, le_abs_self x⟩

/-- Folding additions of mapped terms is the base plus the list sum. -/
lemma foldl_add_map_sum (f : ℕ → ℚ) (b : ℚ) (l : List ℕ) :
    l.foldl (fun acc k => acc + f k) b = b + (l.map f).sum := by
  induction l generalizing b with
  | nil => simp
  | cons x xs ih => simp [ih, add_assoc]

lemma sum_map_range_eq (f : ℕ → ℚ) (n : ℕ) :
    ((List.range n).map f).sum = ∑ k ∈ Finset.range n, f k := by
  induction n with
  | zero => simp
  | succ m ih => rw [List.range_succ]; simp [ih, Finset.sum_range_succ]

/-- The output score as a closed-form sum. -/
lemma outputVal_eq_sum (p : Params) (i0 i1 : ℚ) (o : ℕ) :
    outputVal p i0 i1 o =
      p.bO.getD o 0 + ∑ k ∈ Finset.range 64, hiddenVal p i0 i1 k * p.wHO.getD (k * 3 + o) 0 := by
  unfold outputVal
  rw [foldl_add_map_sum, sum_map_range_eq]

lemma list_range_three : List.range 3 = [0, 1, 2] := by rfl

/-- One update of the selection loop's running maximum. -/
def selStep (out : ℕ → ℚ) (st : ℚ × ℕ) (o : ℕ) : ℚ × ℕ :=
  if out o > st.1 then (out o, o) else st

/-- Unfolds the selection loop to its three explicit steps. -/
lemma selectBest_steps (out : ℕ → ℚ) :
    selectBest out = selStep out (selStep out (selStep out (-(10 ^ 10), 0) 0) 1) 2 := by
  rfl

lemma selStep_pos (out : ℕ → ℚ) (st : ℚ × ℕ) (o : ℕ) (h : out o > st.1) :
    selStep out st o = (out o, o) := if_pos h

lemma selStep_neg (out : ℕ → ℚ) (st : ℚ × ℕ) (o : ℕ) (h : ¬ out o > st.1) :
    selStep out st o = st := if_neg h

/-- The selection loop returns the lowest index attaining the maximum,
    provided the first score exceeds the sentinel. -/
lemma selectBest_spec (out : ℕ → ℚ) (h0 : -(10 ^ 10) < out 0) :
    (selectBest out).2 < 3 ∧
    (∀ o < 3, out o ≤ out (selectBest out).2) ∧
    (∀ o < (selectBest out).2, out o < out (selectBest out).2) := by
  rw [selectBest_steps, selStep_pos out _ 0 h0]
  rcases lt_or_le (out 0) (out 1) with h1 | h1
  · rw [selStep_pos out (out 0, 0) 1 h1]
    rcases lt_or_le (out 1) (out 2) with h2 | h2
    · rw [selStep_pos out (out 1, 1) 2 h2]
      refine ⟨by norm_num, ?_, ?_⟩
      · intro o ho
        interval_cases o
        · exact le_of_lt (h1.trans h2)
        · exact le_of_lt h2
        · exact le_refl (out 2)
      · intro o ho
        interval_cases o
        · exact h1.trans h2
        · exact h2
    · rw [selStep_neg out (out 1, 1) 2 (not_lt.2 h2)]
      refine ⟨by norm_num, ?_, ?_⟩
      · intro o ho
        interval_cases o
        · exact le_of_lt h1
        · exact le_refl (out 1)
        · exact h2
      · intro o ho
        interval_cases o
        exact h1
  · rw [selStep_neg out (out 0, 0) 1 (not_lt.2 h1)]
    rcases lt_or_le (out 0) (out 2) with h2 | h2
    · rw [selStep_pos out (out 0, 0) 2 h2]
      refine ⟨by norm_num, ?_, ?_⟩
      · intro o ho
        interval_cases o
        · exact le_of_lt h2
        · exact le_of_lt (lt_of_le_of_lt h1 h2)
        · exact le_refl (out 2)
      · intro o ho
        interval_cases o
        · exact h2
        · exact lt_of_le_of_lt h1 h2
    · rw [selStep_neg out (out 0, 0) 2 (not_lt.2 h2)]
      refine ⟨by norm_num, ?_, ?_⟩
      · intro o ho
        interval_cases o
        · exact le_refl (out 0)
        · exact h1
        · exact h2
      · intro o ho
        exact absurd ho (Nat.not_lt_zero o)

/-- When the scores at indices 1 and 2 do not exceed the score at index 0,
    the selection loop returns index 0. -/
lemma selectBest_tie (out : ℕ → ℚ) (h0 : -(10 ^ 10) < out 0)
    (h10 : out 1 ≤ out 0) (h20 : out 2 ≤ out 0) : (selectBest out).2 = 0 := by
  rw [selectBest_steps, selStep_pos out _ 0 h0, selStep_neg out _ 1 (not_lt.2 h10),
    selStep_neg out _ 2 (not_lt.2 h20)]

/-- A default-0 read from a list of entries bounded by B is bounded by B. -/
lemma getD_abs_le (l : List ℚ) (B : ℚ) (hB : 0 ≤ B) (hl : ∀ x ∈ l, |x| ≤ B) (n : ℕ) :
    |l.getD n 0| ≤ B := by
  rcases lt_or_le n l.length with hn | hn
  · rw [List.getD_eq_getElem l 0 hn]
    exact hl _ (List.getElem_mem hn)
  · rw [List.getD_eq_default l 0 hn]
    simpa using hB

/-- Micro-unit lists bounded by 10^7 decode to rationals bounded by 10. -/
lemma micro_abs_le (l : List ℤ) (hl : ∀ z ∈ l, z.natAbs ≤ 10000000) :
    ∀ x ∈ l.map q6, |x| ≤ 10 := by
  intro x hx
  obtain ⟨z, hz, rfl⟩ := List.mem_map.1 hx
  have h1 : (z.natAbs : ℚ) ≤ 10000000 := by exact_mod_cast hl z hz
  have h2 : |(z : ℚ)| ≤ 10000000 := by
    rw [← Int.cast_abs, ← Int.cast_natAbs]
    exact h1
  unfold q6
  rw [abs_div, show |(1000000 : ℚ)| = 1000000 by norm_num,
    div_le_iff₀ (by norm_num : (0 : ℚ) < 1000000)]
  linarith

/-- With all hidden→output weights zero, each output score is its bias. -/
lemma outputVal_zero_wHO (p : Params) (i0 i1 : ℚ) (o : ℕ) (hw : ∀ w ∈ p.wHO, w = 0) :
    outputVal p i0 i1 o = p.bO.getD o 0 := by
  rw [outputVal_eq_sum]
  have hz : ∀ k ∈ Finset.range 64, hiddenVal p i0 i1 k * p.wHO.getD (k * 3 + o) 0 = 0 := by
    intro k _
    have : p.wHO.getD (k * 3 + o) 0 = 0 := by
      rcases lt_or_le (k * 3 + o) p.wHO.length with hn | hn
      · rw [List.getD_eq_getElem p.wHO 0 hn]
        exact hw _ (List.getElem_mem hn)
      · exact List.getD_eq_default p.wHO 0 hn
    rw [this, mul_zero]
  rw [Finset.sum_congr rfl hz, Finset.sum_const_zero, add_zero]

/-- The clamp to [-1, 1] has absolute value at most 1. -/
lemma abs_constrain_le_one (x : ℚ) : |constrain x (-1) 1| ≤ 1 := by
  unfold constrain
  split_ifs with h1 h2
  · norm_num
  · norm_num
  · rw [abs_le]
    exact ⟨not_lt.1 h1, not_lt.1 h2⟩

/-- Bounds on a hidden activation when inputs are clamped and all input-side
    parameters have magnitude at most 10. -/
lemma hiddenVal_bounds (p : Params) (i0 i1 : ℚ) (h0 : |i0| ≤ 1) (h1 : |i1| ≤ 1)
    (hw : ∀ x ∈ p.wIH, |x| ≤ 10) (hb : ∀ x ∈ p.bH, |x| ≤ 10) (h : ℕ) :
    0 ≤ hiddenVal p i0 i1 h ∧ hiddenVal p i0 i1 h ≤ 30 := by
  refine ⟨relu_nonneg _, le_trans (relu_le_abs _) ?_⟩
  have e1 : |p.bH.getD h 0| ≤ 10 := getD_abs_le _ _ (by norm_num) hb _
  have e2 : |p.wIH.getD (0 * 64 + h) 0| ≤ 10 := getD_abs_le _ _ (by norm_num) hw _
  have e3 : |p.wIH.getD (1 * 64 + h) 0| ≤ 10 := getD_abs_le _ _ (by norm_num) hw _
  have m2 : |i0 * p.wIH.getD (0 * 64 + h) 0| ≤ 10 := by
    rw [abs_mul]
    calc |i0| * |p.wIH.getD (0 * 64 + h) 0| ≤ 1 * 10 :=
          mul_le_mul h0 e2 (abs_nonneg _) (by norm_num)
    _ = 10 := by norm_num
  have m3 : |i1 * p.wIH.getD (1 * 64 + h) 0| ≤ 10 := by
    rw [abs_mul]
    calc |i1| * |p.wIH.getD (1 * 64 + h) 0| ≤ 1 * 10 :=
          mul_le_mul h1 e3 (abs_nonneg _) (by norm_num)
    _ = 10 := by norm_num
  calc |(p.bH.getD h 0 + i0 * p.wIH.getD (0 * 64 + h) 0) + i1 * p.wIH.getD (1 * 64 + h) 0|
      ≤ |p.bH.getD h 0 + i0 * p.wIH.getD (0 * 64 + h) 0|
        + |i1 * p.wIH.getD (1 * 64 + h) 0| := abs_add _ _
    _ ≤ (|p.bH.getD h 0| + |i0 * p.wIH.getD (0 * 64 + h) 0|)
        + |i1 * p.wIH.getD (1 * 64 + h) 0| := add_le_add_right (abs_add _ _) _
    _ ≤ (10 + 10) + 10 := add_le_add (add_le_add e1 m2) m3
    _ = 30 := by norm_num

/-- Bound on an output score when inputs are clamped and all parameters have
    magnitude at most 10. -/
lemma outputVal_abs_le (p : Params) (i0 i1 : ℚ) (h0 : |i0| ≤ 1) (h1 : |i1| ≤ 1)
    (hw1 : ∀ x ∈ p.wIH, |x| ≤ 10) (hb1 : ∀ x ∈ p.bH, |x| ≤ 10)
    (hw2 : ∀ x ∈ p.wHO, |x| ≤ 10) (hb2 : ∀ x ∈ p.bO, |x| ≤ 10) (o : ℕ) :
    |outputVal p i0 i1 o| ≤ 19210 := by
  rw [outputVal_eq_sum]
  have hterm : ∀ k ∈ Finset.range 64,
      |hiddenVal p i0 i1 k * p.wHO.getD (k * 3 + o) 0| ≤ 300 := by
    intro k _
    rw [abs_mul]
    have hh := hiddenVal_bounds p i0 i1 h0 h1 hw1 hb1 k
    have habs : |hiddenVal p i0 i1 k| ≤ 30 := by
      rw [abs_of_nonneg hh.1]; exact hh.2
    have hwk : |p.wHO.getD (k * 3 + o) 0| ≤ 10 := getD_abs_le _ _ (by norm_num) hw2 _
    calc |hiddenVal p i0 i1 k| * |p.wHO.getD (k * 3 + o) 0| ≤ 30 * 10 :=
          mul_le_mul habs hwk (abs_nonneg _) (by norm_num)
    _ = 300 := by norm_num
  have hsum : |∑ k ∈ Finset.range 64, hiddenVal p i0 i1 k * p.wHO.getD (k * 3 + o) 0|
      ≤ 19200 := by
    calc |∑ k ∈ Finset.range 64, hiddenVal p i0 i1 k * p.wHO.getD (k * 3 + o) 0|
        ≤ ∑ k ∈ Finset.range 64, |hiddenVal p i0 i1 k * p.wHO.getD (k * 3 + o) 0| :=
          Finset.abs_sum_le_sum_abs _ _
      _ ≤ ∑ _k ∈ Finset.range 64, (300 : ℚ) := Finset.sum_le_sum hterm
      _ = 19200 := by rw [Finset.sum_const, Finset.card_range, nsmul_eq_mul]; norm_num
  have hb : |p.bO.getD o 0| ≤ 10 := getD_abs_le _ _ (by norm_num) hb2 _
  calc |p.bO.getD o 0 + ∑ k ∈ Finset.range 64, hiddenVal p i0 i1 k * p.wHO.getD (k * 3 + o) 0|
      ≤ |p.bO.getD o 0|
        + |∑ k ∈ Finset.range 64, hiddenVal p i0 i1 k * p.wHO.getD (k * 3 + o) 0| := abs_add _ _
    _ ≤ 10 + 19200 := add_le_add hb hsum
    _ = 19210 := by norm_num

/-- The three output scores getAction computes from the raw inputs. -/
def netScores (p : Params) (angle angularVelocity : ℚ) : ℕ → ℚ :=
  outputVal p (normAngle angle) (normVel angularVelocity)

/-- Synthetic parameter set for the tie-break scenario: all weights and hidden
    biases zero and output biases (5, 3, 5), so the output scores are exactly
    (5, 3, 5) with a tie between indices 0 and 2. -/
def tieParams : Params :=
  ⟨List.replicate 128 0, List.replicate 64 0, List.replicate 192 0, [5, 3, 5]⟩

/-! ### Claim theorems -/

/-- Claim C1: whenever the three output scores exceed the sentinel -1e10
    (as they do for the shipped tensors), getAction returns the lowest index
    of a maximal output score: the result is below 3, its score is at least
    every score, every earlier index scores strictly less, and in particular
    when the scores at indices 0 and 2 are exactly equal and maximal, index 0
    is returned. -/
theorem getAction_argmax_lowest_tie (p : Params) (angle angularVelocity : ℚ)
    (hsent : ∀ o < 3, -(10 ^ 10) < netScores p angle angularVelocity o) :
    getAction p angle angularVelocity < 3 ∧
    (∀ o < 3, netScores p angle angularVelocity o ≤
      netScores p angle angularVelocity (getAction p angle angularVelocity)) ∧
    (∀ o < getAction p angle angularVelocity,
      netScores p angle angularVelocity o <
        netScores p angle angularVelocity (getAction p angle angularVelocity)) ∧
    (netScores p angle angularVelocity 0 = netScores p angle angularVelocity 2 →
      netScores p angle angularVelocity 1 ≤ netScores p angle angularVelocity 0 →
      getAction p angle angularVelocity = 0) := by
  have h0 : -(10 ^ 10) < netScores p angle angularVelocity 0 := hsent 0 (by norm_num)
  have hmain := selectBest_spec (netScores p angle angularVelocity) h0
  refine ⟨hmain.1, hmain.2.1, hmain.2.2, ?_⟩
  intro h02 h10
  exact selectBest_tie (netScores p angle angularVelocity) h0 h10 (le_of_eq h02.symm)

/-- Witness for C1: on the synthetic tied parameters the sentinel hypothesis
    holds and index 0 is selected over the equal score at index 2. -/
theorem getAction_argmax_lowest_tie_witness :
    (∀ o < 3, -(10 ^ 10) < netScores tieParams 0 0 o) ∧ getAction tieParams 0 0 = 0 := by
  have hw : ∀ w ∈ tieParams.wHO, w = (0 : ℚ) := fun w hmem => List.eq_of_mem_replicate hmem
  have hb : ∀ o < 3, -(10 ^ 10) < netScores tieParams 0 0 o := by
    intro o ho
    show -(10 ^ 10) < outputVal tieParams (normAngle 0) (normVel 0) o
    rw [outputVal_zero_wHO tieParams _ _ o hw]
    interval_cases o <;> norm_num [tieParams, List.getD]
  refine ⟨hb, (getAction_argmax_lowest_tie tieParams 0 0 hb).2.2.2 ?_ ?_⟩
  · show outputVal tieParams (normAngle 0) (normVel 0) 0 =
      outputVal tieParams (normAngle 0) (normVel 0) 2
    rw [outputVal_zero_wHO tieParams _ _ 0 hw, outputVal_zero_wHO tieParams _ _ 2 hw]
    norm_num [tieParams, List.getD]
  · show outputVal tieParams (normAngle 0) (normVel 0) 1 ≤
      outputVal tieParams (normAngle 0) (normVel 0) 0
    rw [outputVal_zero_wHO tieParams _ _ 1 hw, outputVal_zero_wHO tieParams _ _ 0 hw]
    norm_num [tieParams, List.getD]

/-- Claim C2: each hidden unit is max(0, bias + input0·W_ih[h] + input1·W_ih[64+h])
    accumulated bias first, then input 0, then input 1; each output score is
    bias plus the dot product of the 64 relu activations with the output
    weights, with no activation applied; and getAction selects over exactly
    these scores. -/
theorem forwardPass_formulas (p : Params) (angle angularVelocity : ℚ) (h : Fin 64) (o : Fin 3) :
    hiddenVal p (normAngle angle) (normVel angularVelocity) h =
      max 0 (p.bH.getD h 0 + normAngle angle * p.wIH.getD h 0
        + normVel angularVelocity * p.wIH.getD (64 + h) 0) ∧
    outputVal p (normAngle angle) (normVel angularVelocity) o =
      p.bO.getD o 0 + ∑ k ∈ Finset.range 64,
        hiddenVal p (normAngle angle) (normVel angularVelocity) k * p.wHO.getD (k * 3 + o) 0 ∧
    getAction p angle angularVelocity =
      (selectBest (outputVal p (normAngle angle) (normVel angularVelocity))).2 := by
  refine ⟨?_, outputVal_eq_sum p _ _ o, rfl⟩
  unfold hiddenVal
  rw [relu_eq_max]
  norm_num

/-- Claim C3: the input normalization divides the angle by M_PI/3 and the
    angular velocity by 10 and clamps both into [-1, 1]; the clamp saturates
    (below the low bound gives -1, above the high bound gives 1, inside and at
    the bounds the value is unchanged), so any angle at or above M_PI/3
    normalizes to exactly 1 and at or below -M_PI/3 to exactly -1, and
    likewise for the angular velocity at ±10. -/
theorem normalize_clamps :
    (∀ x : ℚ, (x < -1 → constrain x (-1) 1 = -1) ∧ (1 < x → constrain x (-1) 1 = 1) ∧
      (-1 ≤ x → x ≤ 1 → constrain x (-1) 1 = x)) ∧
    (∀ angle : ℚ, normAngle angle = constrain (angle / (mPi / 3)) (-1) 1 ∧
      (mPi / 3 ≤ angle → normAngle angle = 1) ∧
      (angle ≤ -(mPi / 3) → normAngle angle = -1)) ∧
    (∀ v : ℚ, normVel v = constrain (v / 10) (-1) 1 ∧
      (10 ≤ v → normVel v = 1) ∧ (v ≤ -10 → normVel v = -1)) := by
  have hpi : (0 : ℚ) < mPi / 3 := by norm_num [mPi]
  refine ⟨fun x => ⟨?_, ?_, ?_⟩, fun angle => ⟨rfl, ?_, ?_⟩, fun v => ⟨rfl, ?_, ?_⟩⟩
  · intro hx
    rw [constrain, if_pos hx]
  · intro hx
    rw [constrain, if_neg (by linarith), if_pos hx]
  · intro h1 h2
    rw [constrain, if_neg (not_lt.2 h1), if_neg (not_lt.2 h2)]
  · intro hge
    have hv : 1 ≤ angle / (mPi / 3) := (one_le_div hpi).2 hge
    unfold normAngle constrain
    rcases lt_or_le 1 (angle / (mPi / 3)) with hgt | hle
    · rw [if_neg (by linarith), if_pos hgt]
    · rw [if_neg (by linarith), if_neg (by simpa using hle)]
      exact le_antisymm hle hv
  · intro hle
    have hv : angle / (mPi / 3) ≤ -1 := by
      rw [div_le_iff₀ hpi]
      linarith
    unfold normAngle constrain
    rcases lt_or_le (angle / (mPi / 3)) (-1) with hlt | hge
    · rw [if_pos hlt]
    · rw [if_neg (not_lt.2 hge), if_neg (by linarith)]
      exact le_antisymm hv hge
  · intro hge
    have hv : 1 ≤ v / 10 := (one_le_div (by norm_num : (0 : ℚ) < 10)).2 hge
    unfold normVel constrain
    rcases lt_or_le 1 (v / 10) with hgt | hle
    · rw [if_neg (by linarith), if_pos hgt]
    · rw [if_neg (by linarith), if_neg (by simpa using hle)]
      exact le_antisymm hle hv
  · intro hle
    have hv : v / 10 ≤ -1 := by
      rw [div_le_iff₀ (by norm_num : (0 : ℚ) < 10)]
      linarith
    unfold normVel constrain
    rcases lt_or_le (v / 10) (-1) with hlt | hge
    · rw [if_pos hlt]
    · rw [if_neg (not_lt.2 hge), if_neg (by linarith)]
      exact le_antisymm hv hge

/-- Witness for C3: concrete saturating and pass-through inputs. -/
theorem normalize_clamps_witness :
    constrain (-2) (-1) 1 = -1 ∧ constrain 2 (-1) 1 = 1 ∧
    constrain (1 / 2) (-1) 1 = 1 / 2 ∧
    normAngle 4 = 1 ∧ normAngle (-4) = -1 ∧ normVel 10 = 1 ∧ normVel (-12) = -1 :=
  ⟨(normalize_clamps.1 (-2)).1 (by norm_num),
   (normalize_clamps.1 2).2.1 (by norm_num),
   (normalize_clamps.1 (1 / 2)).2.2 (by norm_num) (by norm_num),
   (normalize_clamps.2.1 4).2.1 (by norm_num [mPi]),
   (normalize_clamps.2.1 (-4)).2.2 (by norm_num [mPi]),
   (normalize_clamps.2.2 10).2.1 (by norm_num),
   (normalize_clamps.2.2 (-12)).2.2 (by norm_num)⟩

/-- Claim C4: getMotorTorque maps indices 0, 1, 2 to exactly -1.0, 0.0, 1.0
    (so BRAKE, index 1, always yields exactly 0.0), and every torque it ever
    returns is one of these three values; the table is fixed and independent
    of the trained tensors. -/
theorem getMotorTorque_table :
    getMotorTorque 0 = Except.ok (-1) ∧ getMotorTorque 1 = Except.ok 0 ∧
    getMotorTorque 2 = Except.ok 1 ∧
    ∀ (action : ℤ) (t : ℚ), getMotorTorque action = Except.ok t →
      t = -1 ∨ t = 0 ∨ t = 1 := by
  refine ⟨rfl, rfl, rfl, ?_⟩
  intro action t h
  unfold getMotorTorque atIdx at h
  split_ifs at h with hc
  · have h3 : action.toNat < 3 := by simpa using hc.2
    have ht : [(-1 : ℚ), 0, 1].getD action.toNat 0 = t := by
      injection h
    rcases hn : action.toNat with _ | _ | _ | m
    · rw [hn] at ht
      left
      simpa using ht.symm
    · rw [hn] at ht
      right; left
      simpa using ht.symm
    · rw [hn] at ht
      right; right
      simpa using ht.symm
    · rw [hn] at h3
      omega

/-- Witness for C4: the torque returned for index 1 is one of the three table
    values. -/
theorem getMotorTorque_table_witness : (0 : ℚ) = -1 ∨ (0 : ℚ) = 0 ∨ (0 : ℚ) = 1 :=
  getMotorTorque_table.2.2.2 1 0 getMotorTorque_table.2.1

/-- Claim C5: getAction is a total function (it is defined by structural
    recursion over fixed-length lists, hence terminates on every input) and
    its result is always one of the indices 0, 1, 2. -/
theorem getAction_total_range (p : Params) (angle angularVelocity : ℚ) :
    getAction p angle angularVelocity = 0 ∨ getAction p angle angularVelocity = 1 ∨
    getAction p angle angularVelocity = 2 := by
  show (selectBest (outputVal p (normAngle angle) (normVel angularVelocity))).2 = 0 ∨
    (selectBest (outputVal p (normAngle angle) (normVel angularVelocity))).2 = 1 ∨
    (selectBest (outputVal p (normAngle angle) (normVel angularVelocity))).2 = 2
  rw [selectBest_steps]
  unfold selStep
  split_ifs <;> simp

/-- Claim C6: for every integer index outside {0, 1, 2}, the bounds-checked
    table access of getMotorTorque fails with the outOfRange error kind
    rather than returning a torque value. -/
theorem getMotorTorque_out_of_range (action : ℤ) (h : action < 0 ∨ 2 < action) :
    getMotorTorque action = Except.error BoundsError.outOfRange := by
  unfold getMotorTorque atIdx
  have hc : ¬ (0 ≤ action ∧ action.toNat < ([(-1 : ℚ), 0, 1] : List ℚ).length) := by
    simp only [List.length_cons, List.length_nil]
    rintro ⟨h0, h3⟩
    rcases h with h | h
    · omega
    · omega
  rw [if_neg hc]

/-- Witness for C6: indices 3 and -1 both fail with outOfRange. -/
theorem getMotorTorque_out_of_range_witness :
    getMotorTorque 3 = Except.error BoundsError.outOfRange ∧
    getMotorTorque (-1) = Except.error BoundsError.outOfRange :=
  ⟨getMotorTorque_out_of_range 3 (Or.inr (by norm_num)),
   getMotorTorque_out_of_range (-1) (Or.inl (by norm_num))⟩

/-- Claim C7: with the parameter tensors abstracted as arguments, the three
    model files implement extensionally equal getAction and getMotorTorque
    functions, while their shipped weight values differ pairwise (shown on
    the first output bias). -/
theorem engine_shared_across_files :
    (∀ (p : Params) (angle angularVelocity : ℚ),
      getAction p angle angularVelocity = Great.getAction p angle angularVelocity ∧
      Great.getAction p angle angularVelocity = Okayish.getAction p angle angularVelocity) ∧
    (∀ action : ℤ, getMotorTorque action = Great.getMotorTorque action ∧
      Great.getMotorTorque action = Okayish.getMotorTorque action) ∧
    goodParams.bO.getD 0 0 ≠ greatParams.bO.getD 0 0 ∧
    goodParams.bO.getD 0 0 ≠ okayishParams.bO.getD 0 0 ∧
    greatParams.bO.getD 0 0 ≠ okayishParams.bO.getD 0 0 := by
  refine ⟨fun p angle angularVelocity => ⟨rfl, rfl⟩, fun action => ⟨rfl, rfl⟩, ?_, ?_, ?_⟩
  all_goals
    simp only [goodParams, greatParams, okayishParams, goodBO, greatBO, okayishBO,
      List.map_cons, List.getD_cons_zero, q6]
  all_goals norm_num

/-- Claim C8: for fixed parameters getAction is deterministic (equal input
    pairs give equal action indices), and a call is side-effect free: run as a
    state-passing computation over the parameter store it returns its result
    with the store unchanged. -/
theorem getAction_deterministic_pure (p : Params) (a v a' v' : ℚ)
    (ha : a = a') (hv : v = v') :
    getAction p a v = getAction p a' v' ∧
    ∀ s : Params, (getActionM a v).run s = (getAction s a v, s) := by
  subst ha
  subst hv
  exact ⟨rfl, fun s => rfl⟩

/-- Witness for C8: a concrete repeated call on the shipped good tensors. -/
theorem getAction_deterministic_pure_witness :
    getAction goodParams 0 0 = getAction goodParams 0 0 ∧
    (getActionM 0 0).run goodParams = (getAction goodParams 0 0, goodParams) := by
  have h := getAction_deterministic_pure goodParams 0 0 0 0 rfl rfl
  exact ⟨h.1, h.2 goodParams⟩

/-- Claim C9: when every weight and bias has magnitude at most 10 (true of
    the shipped tensors), every output score has magnitude at most
    19210 = 10 + 64·30·10 in exact arithmetic, hence strictly exceeds the
    sentinel -1e10, so the sentinel never determines the result and the
    returned index is a genuine argmax of the three scores. -/
theorem outputs_bounded_genuine_argmax (p : Params)
    (hw1 : ∀ x ∈ p.wIH, |x| ≤ 10) (hb1 : ∀ x ∈ p.bH, |x| ≤ 10)
    (hw2 : ∀ x ∈ p.wHO, |x| ≤ 10) (hb2 : ∀ x ∈ p.bO, |x| ≤ 10)
    (angle angularVelocity : ℚ) :
    (∀ o < 3, |netScores p angle angularVelocity o| ≤ 19210) ∧
    (∀ o < 3, -(10 ^ 10) < netScores p angle angularVelocity o) ∧
    (∀ o < 3, netScores p angle angularVelocity o ≤
      netScores p angle angularVelocity (getAction p angle angularVelocity)) ∧
    (∀ o < getAction p angle angularVelocity,
      netScores p angle angularVelocity o <
        netScores p angle angularVelocity (getAction p angle angularVelocity)) := by
  have hi0 : |normAngle angle| ≤ 1 := abs_constrain_le_one _
  have hi1 : |normVel angularVelocity| ≤ 1 := abs_constrain_le_one _
  have habs : ∀ o : ℕ, |netScores p angle angularVelocity o| ≤ 19210 := fun o =>
    outputVal_abs_le p _ _ hi0 hi1 hw1 hb1 hw2 hb2 o
  have hsent : ∀ o : ℕ, -(10 ^ 10) < netScores p angle angularVelocity o := by
    intro o
    have := (abs_le.1 (habs o)).1
    linarith
  have hmain := selectBest_spec (netScores p angle angularVelocity) (hsent 0)
  exact ⟨fun o _ => habs o, fun o _ => hsent o, hmain.2.1, hmain.2.2⟩

set_option maxRecDepth 8000 in
/-- Witness for C9: the shipped good tensors satisfy the magnitude bound
    (checked entrywise on the exact micro-unit data), so at input (0, 0) the
    first output score is bounded and exceeds the sentinel. -/
theorem outputs_bounded_genuine_argmax_witness :
    |netScores goodParams 0 0 0| ≤ 19210 ∧ -(10 ^ 10) < netScores goodParams 0 0 0 := by
  have h := outputs_bounded_genuine_argmax goodParams
    (micro_abs_le goodWIH (by decide)) (micro_abs_le goodBH (by decide))
    (micro_abs_le goodWHO (by decide)) (micro_abs_le goodBO (by decide)) 0 0
  exact ⟨h.1 0 (by norm_num), h.2.1 0 (by norm_num)⟩

/-- Claim C10: relu returns its argument when positive and 0 otherwise, so it
    is non-negative everywhere; consequently every hidden activation fed to
    the output layer in a getAction call is at least 0. -/
theorem relu_spec_hidden_nonneg :
    (∀ x : ℚ, (0 < x → relu x = x) ∧ (¬ 0 < x → relu x = 0) ∧ 0 ≤ relu x) ∧
    ∀ (p : Params) (angle angularVelocity : ℚ) (h : Fin 64),
      0 ≤ hiddenVal p (normAngle angle) (normVel angularVelocity) h := by
  constructor
  · intro x
    exact ⟨fun hx => if_pos hx, fun hx => if_neg hx, relu_nonneg x⟩
  · intro p angle angularVelocity h
    exact relu_nonneg _

/-- Witness for C10: relu at 5 and -3, and a concrete hidden activation of
    the shipped good tensors. -/
theorem relu_spec_hidden_nonneg_witness :
    relu 5 = 5 ∧ relu (-3) = 0 ∧ 0 ≤ relu (-3) ∧
    0 ≤ hiddenVal goodParams (normAngle 0) (normVel 0) ((0 : Fin 64) : ℕ) :=
  ⟨(relu_spec_hidden_nonneg.1 5).1 (by norm_num),
   (relu_spec_hidden_nonneg.1 (-3)).2.1 (by norm_num),
   (relu_spec_hidden_nonneg.1 (-3)).2.2,
   relu_spec_hidden_nonneg.2 goodParams 0 0 0⟩
